import Mathlib

/-!
Verification of the user token-ledger route (`src/webui/app/api/users/route.ts`).

The route exposes three HTTP handlers over a MySQL `users` table:
* `POST` — register-or-topup: insert a new row with 5 tokens, or add 5 tokens
  to the existing row for the session email;
* `GET`  — list: return every row of the table;
* `PUT`  — debit: subtract 1 token from the row matching the session email.

We embed the handlers as pure functions.  The database is a list of rows
(`DB`), the session resolver's result (`getServerSession()`) is passed in as a
parameter of type `Sess`, the HTTP request (whose body none of the handlers
read) is a `Request`, and the `NOW()` timestamp is a `Nat` parameter.  SQL
statement semantics:
* `SELECT * FROM users WHERE email = ?` is a filter;
* `INSERT` appends one row;
* `UPDATE ... WHERE email = ?` maps over the rows, modifying those whose
  `email` column equals the parameter; a `NULL` parameter matches no row
  (SQL three-valued logic: `col = NULL` is never true).
-/

namespace UsersRoute

/-- The `user` object inside a next-auth session: `name`, `email`, `image`
are each possibly absent. -/
structure SessUser where
  name : Option String
  email : Option String
  image : Option String
deriving DecidableEq, Repr

/-- Result of `getServerSession()`: the session may be null, and its `user`
field may be missing. -/
abbrev Sess := Option (Option SessUser)

/-- The inbound HTTP request.  Only the body is modelled; no handler reads
any part of it. -/
structure Request where
  body : String
deriving DecidableEq, Repr

/-- One row of the `users` table, with the columns named in the schema:
`name, email, google_image_url, token_remaining, signup_date`. -/
structure UserRow where
  name : Option String
  email : String
  google_image_url : Option String
  token_remaining : Int
  signup_date : Nat
deriving DecidableEq, Repr

/-- The `users` table. -/
abbrev DB := List UserRow

/-- A JSON response body: an error object, a message object, or the
serialized array of user rows. -/
inductive ApiBody where
  | errMsg (s : String)
  | okMsg (s : String)
  | userRows (rows : List UserRow)
deriving DecidableEq, Repr

/-- An HTTP response: status code and JSON body. -/
structure HttpResponse where
  status : Nat
  body : ApiBody
deriving DecidableEq, Repr

/-- `sesh?.user?.name`. -/
def seshName : Sess → Option String
  | some (some u) => u.name
  | _ => none

/-- `sesh?.user?.image`. -/
def seshImage : Sess → Option String
  | some (some u) => u.image
  | _ => none

/-- The email the POST handler resolves:
`if (sesh && sesh.user && sesh.user.email) email = sesh.user.email`.
JavaScript truthiness makes the empty string count as absent. -/
def postEmail : Sess → Option String
  | some (some u) =>
      match u.email with
      | some e => if e == "" then none else some e
      | none => none
  | _ => none

/-- The email the PUT handler resolves:
`if (sesh && sesh.user) email = sesh.user.email` (no truthiness check on the
email itself, and `email` stays null when the session or user is absent). -/
def putEmail : Sess → Option String
  | some (some u) => u.email
  | _ => none

/-- `SELECT * FROM users WHERE email = ?` with a string parameter. -/
def selectByEmail (db : DB) (e : String) : DB :=
  db.filter (fun r => r.email == e)

/-- SQL equality of the `email` column against a nullable parameter:
`email = NULL` never holds. -/
def nullMatch : Option String → String → Bool
  | some v, s => v == s
  | none, _ => false

/-- `UPDATE users SET token_remaining = token_remaining + 5 WHERE email = ?`. -/
def topupByEmail (db : DB) (e : String) : DB :=
  db.map (fun r =>
    if r.email == e then { r with token_remaining := r.token_remaining + 5 } else r)

/-- `UPDATE users SET token_remaining = token_remaining - 1 WHERE email = ?`
with a nullable parameter. -/
def debitByEmail (db : DB) (e : Option String) : DB :=
  db.map (fun r =>
    if nullMatch e r.email then { r with token_remaining := r.token_remaining - 1 } else r)

/-- The POST (register-or-topup) handler.  `now` is the value of `NOW()`. -/
def POST (req : Request) (sesh : Sess) (db : DB) (now : Nat) : HttpResponse × DB :=
  match postEmail sesh with
  | none => (⟨400, ApiBody.errMsg "No email provided"⟩, db)
  | some e =>
      if (selectByEmail db e).length = 0 then
        (⟨200, ApiBody.okMsg "Operation successful"⟩,
         db ++ [⟨seshName sesh, e, seshImage sesh, 5, now⟩])
      else
        (⟨200, ApiBody.okMsg "Operation successful"⟩, topupByEmail db e)

/-- The GET (list) handler.  The source never calls `getServerSession` and
never reads `req`; both parameters are ignored. -/
def GET (req : Request) (sesh : Sess) (db : DB) : HttpResponse × DB :=
  (⟨200, ApiBody.userRows db⟩, db)

/-- The PUT (debit) handler. -/
def PUT (req : Request) (sesh : Sess) (db : DB) : HttpResponse × DB :=
  (⟨200, ApiBody.okMsg "1 token subtracted successfully"⟩,
   debitByEmail db (putEmail sesh))

/-- Claim C1: for a session resolving to an email with no matching row, POST
inserts exactly one new row for that email with `token_remaining = 5` and the
server timestamp, and performs no other write. -/
theorem post_new_email_inserts (req : Request) (sesh : Sess) (db : DB)
    (now : Nat) (e : String)
    (he : postEmail sesh = some e) (habs : selectByEmail db e = []) :
    POST req sesh db now =
      (⟨200, ApiBody.okMsg "Operation successful"⟩,
       db ++ [⟨seshName sesh, e, seshImage sesh, 5, now⟩]) := by
  simp [POST, he, habs]

/-- Witness for C1 at a concrete session and an empty table. -/
theorem post_new_email_inserts_witness :
    POST ⟨"ignored"⟩ (some (some ⟨some "A", some "a@x.com", some "img"⟩)) [] 7 =
      (⟨200, ApiBody.okMsg "Operation successful"⟩,
       [⟨some "A", "a@x.com", some "img", 5, 7⟩]) := by
  rw [post_new_email_inserts ⟨"ignored"⟩
        (some (some ⟨some "A", some "a@x.com", some "img"⟩)) [] 7 "a@x.com"
        (by decide) (by decide)]
  decide

/-- Claim C2: for a session resolving to an email that already has a matching
row, POST adds exactly 5 to the `token_remaining` of each row with that email,
leaves every other row unchanged, and inserts no new row. -/
theorem post_existing_email_topup (req : Request) (sesh : Sess) (db : DB)
    (now : Nat) (e : String)
    (he : postEmail sesh = some e) (hex : selectByEmail db e ≠ []) :
    ((POST req sesh db now).2).length = db.length ∧
    ∀ i : Nat, ((POST req sesh db now).2)[i]? =
      (db[i]?).map (fun r =>
        if r.email == e then { r with token_remaining := r.token_remaining + 5 }
        else r) := by
  have hlen : (selectByEmail db e).length ≠ 0 := by
    simpa [List.length_eq_zero] using hex
  simp [POST, he, hlen, topupByEmail, List.getElem?_map]

/-- Witness for C2: a table holding the account with balance 5; the second
POST raises it to 10 without adding a row. -/
theorem post_existing_email_topup_witness :
    ((POST ⟨""⟩ (some (some ⟨some "A", some "a@x.com", none⟩))
        [⟨some "A", "a@x.com", none, 5, 7⟩] 9).2).length = 1 ∧
    ((POST ⟨""⟩ (some (some ⟨some "A", some "a@x.com", none⟩))
        [⟨some "A", "a@x.com", none, 5, 7⟩] 9).2)[0]? =
      some ⟨some "A", "a@x.com", none, 10, 7⟩ := by
  have h := post_existing_email_topup ⟨""⟩
    (some (some ⟨some "A", some "a@x.com", none⟩))
    [⟨some "A", "a@x.com", none, 5, 7⟩] 9 "a@x.com" (by decide) (by decide)
  refine ⟨h.1, ?_⟩
  rw [h.2 0]
  decide

/-- Claim C3: when the session yields no resolvable email, POST returns
HTTP 400 with the error body "No email provided" and leaves the database
unchanged. -/
theorem post_no_email_400 (req : Request) (sesh : Sess) (db : DB) (now : Nat)
    (he : postEmail sesh = none) :
    POST req sesh db now = (⟨400, ApiBody.errMsg "No email provided"⟩, db) := by
  simp [POST, he]

/-- Witness for C3 at a null session over a nonempty table. -/
theorem post_no_email_400_witness :
    POST ⟨"b"⟩ none [⟨none, "a@x.com", none, 5, 1⟩] 2 =
      (⟨400, ApiBody.errMsg "No email provided"⟩,
       [⟨none, "a@x.com", none, 5, 1⟩]) :=
  post_no_email_400 ⟨"b"⟩ none [⟨none, "a@x.com", none, 5, 1⟩] 2 rfl

/-- Claim C4: for a session resolving to an email, PUT subtracts exactly 1
from the `token_remaining` of each row with that email and leaves every other
row unchanged; the subtraction is unconditional (over `Int`), so a balance of
0 becomes -1. -/
theorem put_debits_matching (req : Request) (sesh : Sess) (db : DB) (e : String)
    (he : putEmail sesh = some e) :
    ((PUT req sesh db).2).length = db.length ∧
    ∀ i : Nat, ((PUT req sesh db).2)[i]? =
      (db[i]?).map (fun r =>
        if r.email == e then { r with token_remaining := r.token_remaining - 1 }
        else r) := by
  simp only [PUT, he, debitByEmail, nullMatch, List.getElem?_map,
    List.length_map, beq_iff_eq]
  refine ⟨trivial, fun i => ?_⟩
  cases db[i]? with
  | none => rfl
  | some r => simp [eq_comm]

/-- Witness for C4: a matching row at balance 0 goes to -1 while a
non-matching row is untouched. -/
theorem put_debits_matching_witness :
    ((PUT ⟨""⟩ (some (some ⟨none, some "a@x.com", none⟩))
        [⟨none, "a@x.com", none, 0, 1⟩, ⟨none, "b@x.com", none, 3, 2⟩]).2).length = 2 ∧
    ((PUT ⟨""⟩ (some (some ⟨none, some "a@x.com", none⟩))
        [⟨none, "a@x.com", none, 0, 1⟩, ⟨none, "b@x.com", none, 3, 2⟩]).2)[0]? =
      some ⟨none, "a@x.com", none, -1, 1⟩ ∧
    ((PUT ⟨""⟩ (some (some ⟨none, some "a@x.com", none⟩))
        [⟨none, "a@x.com", none, 0, 1⟩, ⟨none, "b@x.com", none, 3, 2⟩]).2)[1]? =
      some ⟨none, "b@x.com", none, 3, 2⟩ := by
  have h := put_debits_matching ⟨""⟩ (some (some ⟨none, some "a@x.com", none⟩))
    [⟨none, "a@x.com", none, 0, 1⟩, ⟨none, "b@x.com", none, 3, 2⟩]
    "a@x.com" (by decide)
  refine ⟨h.1, ?_, ?_⟩
  · rw [h.2 0]; decide
  · rw [h.2 1]; decide

/-- Claim C5: when the session yields no resolvable identity/email, PUT
matches zero rows (the database is unchanged) yet still returns HTTP 200 with
the success message "1 token subtracted successfully". -/
theorem put_no_identity_silent_success (req : Request) (sesh : Sess) (db : DB)
    (he : putEmail sesh = none) :
    PUT req sesh db =
      (⟨200, ApiBody.okMsg "1 token subtracted successfully"⟩, db) := by
  simp [PUT, he, debitByEmail, nullMatch]

/-- Witness for C5 at a null session over a nonempty table. -/
theorem put_no_identity_silent_success_witness :
    PUT ⟨"x"⟩ none [⟨none, "a@x.com", none, 5, 1⟩] =
      (⟨200, ApiBody.okMsg "1 token subtracted successfully"⟩,
       [⟨none, "a@x.com", none, 5, 1⟩]) :=
  put_no_identity_silent_success ⟨"x"⟩ none [⟨none, "a@x.com", none, 5, 1⟩] rfl

/-- Claim C6: for every database state, GET returns HTTP 200 with the JSON
array of every row of the table verbatim, and writes nothing. -/
theorem get_returns_all_rows (req : Request) (sesh : Sess) (db : DB) :
    GET req sesh db = (⟨200, ApiBody.userRows db⟩, db) := rfl

/-- Claim C7: starting from an empty table, POST with identity
`email = "a@x.com"` creates a row with balance 5, a second POST raises it to
10, PUT lowers it to 9, and GET then returns exactly one row with balance 9. -/
theorem scenario_register_topup_debit_list :
    (POST ⟨""⟩ (some (some ⟨some "A", some "a@x.com", none⟩)) [] 10).2 =
      [⟨some "A", "a@x.com", none, 5, 10⟩] ∧
    (POST ⟨""⟩ (some (some ⟨some "A", some "a@x.com", none⟩))
        [⟨some "A", "a@x.com", none, 5, 10⟩] 11).2 =
      [⟨some "A", "a@x.com", none, 10, 10⟩] ∧
    (PUT ⟨""⟩ (some (some ⟨some "A", some "a@x.com", none⟩))
        [⟨some "A", "a@x.com", none, 10, 10⟩]).2 =
      [⟨some "A", "a@x.com", none, 9, 10⟩] ∧
    GET ⟨""⟩ (some (some ⟨some "A", some "a@x.com", none⟩))
        [⟨some "A", "a@x.com", none, 9, 10⟩] =
      (⟨200, ApiBody.userRows [⟨some "A", "a@x.com", none, 9, 10⟩]⟩,
       [⟨some "A", "a@x.com", none, 9, 10⟩]) := by
  decide

/-- Any map that preserves the `email` column preserves the presence of a row
with a given email. -/
theorem email_preserved_of_map {db : DB} {e0 : String} (f : UserRow → UserRow)
    (hf : ∀ r, (f r).email = r.email) (h : ∃ r ∈ db, r.email = e0) :
    ∃ r ∈ db.map f, r.email = e0 := by
  obtain ⟨r, hr, hre⟩ := h
  exact ⟨f r, List.mem_map_of_mem f hr, by rw [hf r, hre]⟩

/-- Claim C8: no operation deletes an account — for every email with a row in
the table before POST, GET or PUT runs, a row with that email is still present
afterwards. -/
theorem no_operation_deletes_accounts (req : Request) (sesh : Sess) (db : DB)
    (now : Nat) (e0 : String) (h : ∃ r ∈ db, r.email = e0) :
    (∃ r ∈ (POST req sesh db now).2, r.email = e0) ∧
    (∃ r ∈ (GET req sesh db).2, r.email = e0) ∧
    (∃ r ∈ (PUT req sesh db).2, r.email = e0) := by
  refine ⟨?_, h, ?_⟩
  · cases hpe : postEmail sesh with
    | none => simpa [POST, hpe] using h
    | some e =>
        by_cases hsel : (selectByEmail db e).length = 0
        · obtain ⟨r, hr, hre⟩ := h
          exact ⟨r, by simp [POST, hpe, hsel, List.mem_append, hr], hre⟩
        · have : (POST req sesh db now).2 = topupByEmail db e := by
            simp [POST, hpe, hsel]
          rw [this, topupByEmail]
          exact email_preserved_of_map _ (fun r => by split <;> rfl) h
  · have hput : (PUT req sesh db).2 = debitByEmail db (putEmail sesh) := rfl
    rw [hput, debitByEmail]
    exact email_preserved_of_map _ (fun r => by split <;> rfl) h

/-- Witness for C8: the account "a@x.com" survives all three operations. -/
theorem no_operation_deletes_accounts_witness :
    (∃ r ∈ (POST ⟨""⟩ none [⟨none, "a@x.com", none, 2, 1⟩] 5).2,
      r.email = "a@x.com") ∧
    (∃ r ∈ (GET ⟨""⟩ none [⟨none, "a@x.com", none, 2, 1⟩]).2,
      r.email = "a@x.com") ∧
    (∃ r ∈ (PUT ⟨""⟩ none [⟨none, "a@x.com", none, 2, 1⟩]).2,
      r.email = "a@x.com") :=
  no_operation_deletes_accounts ⟨""⟩ none [⟨none, "a@x.com", none, 2, 1⟩] 5
    "a@x.com" ⟨⟨none, "a@x.com", none, 2, 1⟩, by decide, rfl⟩

/-- Claim C9: GET never consults the session resolver — for any two requests
and any two resolver results over the same database state, GET returns the
identical response. -/
theorem get_independent_of_identity (req1 req2 : Request) (s1 s2 : Sess)
    (db : DB) : GET req1 s1 db = GET req2 s2 db := rfl

/-- Claim C10: none of the three handlers reads the request body — with the
resolver result, database state and timestamp fixed, two requests differing
only in their body produce identical responses and identical final states. -/
theorem handlers_independent_of_body (b1 b2 : String) (sesh : Sess) (db : DB)
    (now : Nat) :
    POST ⟨b1⟩ sesh db now = POST ⟨b2⟩ sesh db now ∧
    GET ⟨b1⟩ sesh db = GET ⟨b2⟩ sesh db ∧
    PUT ⟨b1⟩ sesh db = PUT ⟨b2⟩ sesh db :=
  ⟨rfl, rfl, rfl⟩

end UsersRoute
